import Mathlib

/-!
Shallow embedding of the core of `src/backend/app.py` (NYC transit hub backend):
the alert classifier, service-status aggregator, arrival extractor,
static-schedule loader and route-topology builder, together with the
service-status cache store.

Python strings are modelled as Lean `String` (with keyword scanning done on
`List Char`), Python dicts as insertion-ordered association lists, and the
SQLite cache table as an explicit list of rows.  Unix times and GTFS
timestamps are modelled as `Int`.
-/

/-! ## Character-list helpers (Python `str.lower`, `in`, `startswith`, `endswith`) -/

/-- Lowercased character list of a string (Python `s.lower()`). -/
def lowerStr (s : String) : List Char :=
  s.data.map Char.toLower

/-- `startsWithCh pat s` : the list `s` begins with `pat`. -/
def startsWithCh : List Char → List Char → Bool
  | [], _ => true
  | _ :: _, [] => false
  | p :: ps, c :: cs => p == c && startsWithCh ps cs

/-- `hasSubstr s pat` : `pat` occurs contiguously inside `s` (Python `pat in s`). -/
def hasSubstr : List Char → List Char → Bool
  | [], pat => pat.isEmpty
  | s@(_ :: rest), pat => startsWithCh pat s || hasSubstr rest pat

/-- `endsWithCh pat s` : the list `s` ends with `pat` (Python `s.endswith(pat)`). -/
def endsWithCh (pat s : List Char) : Bool :=
  startsWithCh pat.reverse s.reverse

/-! ## Severity taxonomy and the keyword classifier
(`get_route_status_from_alerts`, app.py lines 161-175) -/

/-- The three severity labels assigned by the classifier
(`'good'`, `'delay'`, `'service-change'` in the source). -/
inductive Status
  | good
  | delay
  | serviceChange
deriving DecidableEq, Repr

/-- The severity ranking dict `status_priority = {'service-change': 2, 'delay': 1, 'good': 0}`
(app.py line 193). -/
def status_priority : Status → Nat
  | .serviceChange => 2
  | .delay => 1
  | .good => 0

/-- The keyword if-chain of app.py lines 162-175, applied to the already
lowercased combined text. -/
def severity_of_lower (t : List Char) : Status :=
  if hasSubstr t "suspended".data || hasSubstr t "no service".data
      || hasSubstr t "not operating".data then
    .serviceChange
  else if hasSubstr t "delayed".data || hasSubstr t "delay".data
      || hasSubstr t "running behind".data then
    .delay
  else if hasSubstr t "skip".data || hasSubstr t "skips".data
      || hasSubstr t "skip stops".data then
    .serviceChange
  else if hasSubstr t "express".data
      && (hasSubstr t "running".data || hasSubstr t "skip".data) then
    .serviceChange
  else if hasSubstr t "modified schedule".data
      || hasSubstr t "adjusted schedule".data then
    .serviceChange
  else
    .good

/-- Severity of a combined alert text: lowercase then run the keyword chain
(app.py lines 162-175, `combined_text_lower = combined_text.lower()`). -/
def classify_combined_text (combined_text : String) : Status :=
  severity_of_lower (lowerStr combined_text)

/-- Modelled from the spec's words (§4.2 step 3) for comparison with the
source classifier: first match wins among
"suspended"/"no service"/"not operating" → service-change;
"delayed"/"delay"/"running behind" → delay; "skip"/"skips" → service-change;
"express" and ("running" or "skip") → service-change;
"modified schedule"/"adjusted schedule" → service-change; else good. -/
def severity_spec_of_lower (t : List Char) : Status :=
  if hasSubstr t "suspended".data || hasSubstr t "no service".data
      || hasSubstr t "not operating".data then
    .serviceChange
  else if hasSubstr t "delayed".data || hasSubstr t "delay".data
      || hasSubstr t "running behind".data then
    .delay
  else if hasSubstr t "skip".data || hasSubstr t "skips".data then
    .serviceChange
  else if hasSubstr t "express".data
      && (hasSubstr t "running".data || hasSubstr t "skip".data) then
    .serviceChange
  else if hasSubstr t "modified schedule".data
      || hasSubstr t "adjusted schedule".data then
    .serviceChange
  else
    .good

/-- The spec-side classifier on raw combined text. -/
def classify_spec (combined_text : String) : Status :=
  severity_spec_of_lower (lowerStr combined_text)

/-! ## Association-list model of Python dicts (insertion ordered) -/

/-- Dict lookup: first binding of the key, if any. -/
def lookupAssoc {β : Type} : List (String × β) → String → Option β
  | [], _ => none
  | (k0, v0) :: rest, k => if k0 = k then some v0 else lookupAssoc rest k

/-- Dict assignment `m[k] = v`: replace the binding in place, else append. -/
def setAssoc {β : Type} : List (String × β) → String → β → List (String × β)
  | [], k, v => [(k, v)]
  | (k0, v0) :: rest, k, v =>
      if k0 = k then (k, v) :: rest else (k0, v0) :: setAssoc rest k v

/-- Dict `m.setdefault(k, []).append(v)`. -/
def appendAssoc {β : Type} (m : List (String × List β)) (k : String) (v : β) :
    List (String × List β) :=
  setAssoc m k (((lookupAssoc m k).getD []) ++ [v])

/-! ## Feed-message data model (GTFS-realtime protobuf, as consumed by app.py) -/

/-- One entry of a `TranslatedString` (only `.text` is consumed). -/
structure Translation where
  text : String
deriving DecidableEq, Repr

/-- A protobuf `TranslatedString` field: a possibly empty list of translations. -/
structure TranslatedText where
  translation : List Translation
deriving DecidableEq, Repr

/-- An alert's informed entity; `route_id` is `some` iff `HasField('route_id')`. -/
structure InformedEntity where
  route_id : Option String
deriving DecidableEq, Repr

/-- A service alert entity. -/
structure Alert where
  informed_entity : List InformedEntity
  header_text : TranslatedText
  description_text : TranslatedText
deriving DecidableEq, Repr

/-- The trip descriptor inside a trip update (only `route_id` is consumed). -/
structure TripDescriptor where
  route_id : String
deriving DecidableEq, Repr

/-- One stop-time update; `arrival` is `some time` iff `HasField('arrival')`. -/
structure StopTimeUpdate where
  stop_id : String
  arrival : Option Int
deriving DecidableEq, Repr

/-- A trip-update entity. -/
structure TripUpdate where
  trip : TripDescriptor
  stop_time_update : List StopTimeUpdate
deriving DecidableEq, Repr

/-- A feed entity: `alert` / `trip_update` present iff the protobuf field is set. -/
structure FeedEntity where
  alert : Option Alert
  trip_update : Option TripUpdate
deriving DecidableEq, Repr

/-- A decoded feed message. `fetch_gtfs_feed` yields `Option FeedMessage`
(`none` models a network / decode failure). -/
structure FeedMessage where
  entity : List FeedEntity
deriving DecidableEq, Repr

/-! ## Alert classifier (`get_route_status_from_alerts`, app.py lines 124-203) -/

/-- One message dict appended to a route's message list (app.py lines 185-190). -/
structure AlertMessage where
  header : List Char
  description : List Char
  text : List Char
  status : Status
deriving DecidableEq, Repr

/-- A value of the `route_status` dict: overall severity plus message list. -/
structure RouteEntry where
  status : Status
  messages : List AlertMessage
deriving DecidableEq, Repr

/-- The per-(alert, informed-entity) items processed by the classifier loops:
route id together with the message built from the alert's texts
(app.py lines 133-190).  Header/description are the first translations (else
empty), the combined text joins non-empty parts (else the literal
"Service alert"), severity is classified on the untruncated combined text,
and the stored fields are truncated to 200/1000/300 characters. -/
def alert_items (entities : List FeedEntity) : List (String × AlertMessage) :=
  entities.flatMap fun e =>
    match e.alert with
    | none => []
    | some alert =>
      alert.informed_entity.filterMap fun ie =>
        ie.route_id.map fun route_id =>
          let header : String :=
            match alert.header_text.translation with
            | t :: _ => t.text
            | [] => ""
          let description : String :=
            match alert.description_text.translation with
            | t :: _ => t.text
            | [] => ""
          let combined_text : String :=
            if !header.isEmpty && !description.isEmpty then
              header ++ " â€” " ++ description
            else if !header.isEmpty then header
            else if !description.isEmpty then description
            else "Service alert"
          (route_id,
            { header := header.data.take 200,
              description := description.data.take 1000,
              text := combined_text.data.take 300,
              status := classify_combined_text combined_text })

/-- Fold one classified message into the `route_status` dict
(app.py lines 177-195): create the entry with status `good` and no messages
if absent, append the message, then raise the overall status if the new
message's severity has strictly greater priority. -/
def fold_alert_message (m : List (String × RouteEntry)) (route_id : String)
    (msg : AlertMessage) : List (String × RouteEntry) :=
  let entry0 := (lookupAssoc m route_id).getD { status := .good, messages := [] }
  let entry1 := { entry0 with messages := entry0.messages ++ [msg] }
  let entry2 :=
    if status_priority msg.status > status_priority entry1.status then
      { entry1 with status := msg.status }
    else entry1
  setAssoc m route_id entry2

/-- The classifier: on fetch failure the empty mapping, otherwise fold every
(route, message) item of the alerts feed into the dict. -/
def get_route_status_from_alerts (feed : Option FeedMessage) :
    List (String × RouteEntry) :=
  match feed with
  | none => []
  | some f => (alert_items f.entity).foldl (fun m p => fold_alert_message m p.1 p.2) []

/-! ## Invariants of the classifier's mapping -/

/-- Maximum severity rank over a message list (0 on the empty list). -/
def maxPriority (msgs : List AlertMessage) : Nat :=
  msgs.foldl (fun acc m => Nat.max acc (status_priority m.status)) 0

/-- The invariant each `route_status` entry satisfies: a non-empty message
list whose maximum severity rank is the entry's overall severity rank. -/
def entryInvariant (e : RouteEntry) : Prop :=
  e.messages ≠ [] ∧ status_priority e.status = maxPriority e.messages

/-- The severity rank the dict currently holds for a route (0 when absent,
matching the rank of the `'good'` placeholder a fresh entry starts from). -/
def route_rank (m : List (String × RouteEntry)) (r : String) : Nat :=
  match lookupAssoc m r with
  | some e => status_priority e.status
  | none => 0

/-! ## Service status aggregator (`get_service_status`, app.py lines 207-286) -/

/-- The fixed catalog of 24 subway lines (app.py lines 215-240): identifier
and display name; every entry has type `'subway'`. -/
def all_lines : List (String × String) :=
  [("1", "1 Line"), ("2", "2 Line"), ("3", "3 Line"), ("4", "4 Line"),
   ("5", "5 Line"), ("6", "6 Line"), ("7", "7 Line"),
   ("A", "A Line"), ("B", "B Line"), ("C", "C Line"), ("D", "D Line"),
   ("E", "E Line"), ("F", "F Line"), ("G", "G Line"), ("J", "J Line"),
   ("L", "L Line"), ("M", "M Line"), ("N", "N Line"), ("Q", "Q Line"),
   ("R", "R Line"), ("W", "W Line"), ("Z", "Z Line"),
   ("SI", "Staten Island Railway"), ("S", "Shuttle (S)")]

/-- One element of the `service_data` response list (app.py lines 250-268). -/
structure ServiceEntry where
  id : String
  name : String
  type : String
  status : Status
  message : List Char
  messages : List AlertMessage
deriving DecidableEq, Repr

/-- The synthetic message emitted for a route with no alert (app.py line 267). -/
def good_service_message : AlertMessage :=
  { header := ("Good Service").data, description := [],
    text := ("Good Service").data, status := .good }

/-- Build `service_data` for the catalog (app.py lines 243-268): a route in
the alert mapping keeps its computed severity and messages, with the first
message's text as primary display message (the literal `'Service alert'` when
the list is empty); an absent route gets `good` with the synthetic message. -/
def build_service_data (route_status : List (String × RouteEntry)) : List ServiceEntry :=
  all_lines.map fun li =>
    match lookupAssoc route_status li.1 with
    | some status_info =>
      { id := li.1, name := li.2, type := "subway",
        status := status_info.status,
        message :=
          match status_info.messages with
          | m0 :: _ => m0.text
          | [] => ("Service alert").data,
        messages := status_info.messages }
    | none =>
      { id := li.1, name := li.2, type := "subway",
        status := .good,
        message := ("Good Service").data,
        messages := [good_service_message] }

/-! ## Service-status cache store (`init_db` lines 82-90, persist loop lines 270-282)

The `service_status_cache` table of `init_db` declares
`id INTEGER PRIMARY KEY AUTOINCREMENT` and NO unique constraint on
`route_id`; consequently SQLite's `INSERT OR REPLACE` (which only replaces on
a uniqueness violation) never finds a conflicting row — the `id` supplied is
always a fresh autoincrement value — and each execution appends a new row. -/

/-- One row of the `service_status_cache` table. -/
structure CacheRow where
  id : Nat
  route_id : String
  status : Status
  message : List Char
  updated_at : Int
deriving DecidableEq, Repr

/-- The cache table: rows plus the next autoincrement id. -/
structure CacheDb where
  rows : List CacheRow
  next_id : Nat
deriving DecidableEq, Repr

/-- `INSERT OR REPLACE INTO service_status_cache (route_id, status, message,
updated_at) VALUES (?, ?, ?, ?)` against the schema above: a plain append
with a fresh autoincrement id (no unique constraint can conflict). -/
def insert_or_replace_cache (db : CacheDb) (route_id : String) (status : Status)
    (message : List Char) (updated_at : Int) : CacheDb :=
  { rows := db.rows ++
      [{ id := db.next_id, route_id := route_id, status := status,
         message := message, updated_at := updated_at }],
    next_id := db.next_id + 1 }

/-- The persist loop (app.py lines 273-280): one insert per service entry,
with the pipe-joined message texts. -/
def persist_service_data (db : CacheDb) (service_data : List ServiceEntry)
    (now : Int) : CacheDb :=
  service_data.foldl
    (fun db s =>
      insert_or_replace_cache db s.id s.status
        (List.intercalate ("|").data (s.messages.map AlertMessage.text)) now)
    db

/-- One full service-status computation cycle: classify the alerts feed,
build the catalog response, persist it to the cache table. -/
def service_status_cycle (db : CacheDb) (feed : Option FeedMessage) (now : Int) :
    CacheDb :=
  persist_service_data db (build_service_data (get_route_status_from_alerts feed)) now

/-! ## Arrival extractor (`get_arrivals`, app.py lines 419-460) -/

/-- One element of the `arrivals` response list. -/
structure Arrival where
  line : String
  direction : String
  minutes : Int
deriving DecidableEq, Repr

/-- `minutes = max(0, (arrival_time - current_time) // 60)` (app.py line 442);
Python `//` on integers is flooring division, hence `Int.fdiv`. -/
def arrival_minutes (arrival_time current_time : Int) : Int :=
  max 0 ((arrival_time - current_time).fdiv 60)

/-- Processing of one stop-time update (app.py lines 437-451): emit an
arrival iff the stop id starts with the station id and an arrival time is
present; direction is `Uptown` iff the stop id ends with `N`. -/
def emit_arrival (station_id : String) (current_time : Int) (route_id : String)
    (stop_time : StopTimeUpdate) : Option Arrival :=
  if startsWithCh station_id.data stop_time.stop_id.data then
    match stop_time.arrival with
    | some arrival_time =>
      some { line := route_id,
             direction :=
               if endsWithCh ("N").data stop_time.stop_id.data then "Uptown"
               else "Downtown",
             minutes := arrival_minutes arrival_time current_time }
    | none => none
  else none

/-- Collect arrivals across all feeds (app.py lines 426-451); a feed that
failed to fetch (`none`) and an entity without a trip update contribute
nothing. -/
def collect_arrivals (station_id : String) (current_time : Int)
    (feeds : List (Option FeedMessage)) : List Arrival :=
  feeds.flatMap fun fo =>
    match fo with
    | none => []
    | some feed =>
      feed.entity.flatMap fun e =>
        match e.trip_update with
        | none => []
        | some trip =>
          trip.stop_time_update.filterMap
            (emit_arrival station_id current_time trip.trip.route_id)

/-- Comparison used by `arrivals.sort(key=lambda x: x['minutes'])`. -/
def arrival_le (a b : Arrival) : Bool :=
  decide (a.minutes ≤ b.minutes)

/-- Insert into a sorted list, keeping the inserted element before the first
element it compares `le` to (a stable ascending sort step). -/
def insertSorted {α : Type} (le : α → α → Bool) (x : α) : List α → List α
  | [] => [x]
  | y :: ys => if le x y then x :: y :: ys else y :: insertSorted le x ys

/-- Stable ascending sort modelling Python's `list.sort`. -/
def insertionSortBy {α : Type} (le : α → α → Bool) : List α → List α
  | [] => []
  | x :: xs => insertSorted le x (insertionSortBy le xs)

/-- `get_arrivals`: collect, sort ascending by minutes, keep the first 10
(app.py lines 453-455). -/
def get_arrivals (station_id : String) (current_time : Int)
    (feeds : List (Option FeedMessage)) : List Arrival :=
  (insertionSortBy arrival_le (collect_arrivals station_id current_time feeds)).take 10

/-! ## Static schedule loader (`download_gtfs_static`, app.py lines 464-479) -/

/-- Row of `stops.txt` as read by `csv.DictReader`; an empty string models a
missing/empty field (Python falsiness).  The parsed float coordinates are
modelled as integers — no claim depends on coordinate arithmetic, only on
which coordinates appear and in what order. -/
structure StopRow where
  stop_id : String
  stop_name : String
  stop_desc : String
  stop_lat : Int
  stop_lon : Int
deriving DecidableEq, Repr

/-- Row of `trips.txt`. -/
structure TripRow where
  trip_id : String
  route_id : String
deriving DecidableEq, Repr

/-- Row of `stop_times.txt`; `stop_sequence` is the parsed integer
(0 when the field is missing, per `int(r.get('stop_sequence') or 0)`). -/
structure StopTimeRow where
  trip_id : String
  stop_id : String
  stop_sequence : Nat
deriving DecidableEq, Repr

/-- The three tables read from the static archive (a file absent from the
zip's namelist reads as an empty row list). -/
structure GtfsArchive where
  stops_rows : List StopRow
  trips_rows : List TripRow
  stop_times_rows : List StopTimeRow
deriving DecidableEq, Repr

/-- `GTFS_CACHE_TTL = 60 * 60 * 24` seconds (app.py line 38). -/
def GTFS_CACHE_TTL : Int := 60 * 60 * 24

/-- `download_gtfs_static` (app.py lines 464-479), with the filesystem and
network made explicit: `cache` is the local zip with its mtime (`none` when
the file does not exist), `now` the current time, `net` the download result
(`none` on network error or non-2xx).  Returns the archive the returned path
points at, or `none` when the function returns `None`: a fresh cache (not
forced) short-circuits to the cached content; otherwise the downloaded
content is written and returned, and a failed download falls to the
exception handler, which returns `None`. -/
def download_gtfs_static (cache : Option (Int × GtfsArchive)) (now : Int)
    (force : Bool) (net : Option GtfsArchive) : Option GtfsArchive :=
  match cache, force with
  | some (mtime, archive), false =>
    if now - mtime < GTFS_CACHE_TTL then some archive
    else
      match net with
      | some content => some content
      | none => none
  | _, _ =>
    match net with
    | some content => some content
    | none => none

/-! ## Route topology builder (`parse_gtfs_static`, app.py lines 482-591) -/

/-- A stop as held in the `stops` dict (app.py lines 506-523); `lines`
accumulates the routes whose representative trip keeps this stop. -/
structure StopInfo where
  stop_id : String
  name : String
  lat : Int
  lon : Int
  lines : List String
deriving DecidableEq, Repr

/-- A polyline entry of the `route_polylines` dict (app.py lines 569-573);
`coordinates` is the ordered `[lat, lon]` pair list. -/
structure RoutePolyline where
  id : String
  name : String
  coordinates : List (List Int)
deriving DecidableEq, Repr

/-- An element of the `stops_list` output (app.py lines 576-584). -/
structure StopOut where
  id : String
  name : String
  lat : Int
  lon : Int
  lines : List String
deriving DecidableEq, Repr

/-- Build the `stops` dict (app.py lines 506-523): skip rows with a falsy
`stop_id`; name falls back `stop_name` → `stop_desc` → `stop_id`. -/
def build_stops (rows : List StopRow) : List (String × StopInfo) :=
  rows.foldl
    (fun m r =>
      if r.stop_id.isEmpty then m
      else
        setAssoc m r.stop_id
          { stop_id := r.stop_id,
            name :=
              if !r.stop_name.isEmpty then r.stop_name
              else if !r.stop_desc.isEmpty then r.stop_desc
              else r.stop_id,
            lat := r.stop_lat, lon := r.stop_lon, lines := [] })
    []

/-- Build `trip_to_route` (app.py lines 526-531): skip rows missing either id. -/
def build_trip_to_route (rows : List TripRow) : List (String × String) :=
  rows.foldl
    (fun m r =>
      if !r.trip_id.isEmpty && !r.route_id.isEmpty then setAssoc m r.trip_id r.route_id
      else m)
    []

/-- Build `trip_stopseq` (app.py lines 534-541): group `(seq, stop_id)` pairs
by trip, skipping rows missing trip or stop id. -/
def build_trip_stopseq (rows : List StopTimeRow) :
    List (String × List (Nat × String)) :=
  rows.foldl
    (fun m r =>
      if !r.trip_id.isEmpty && !r.stop_id.isEmpty then
        appendAssoc m r.trip_id (r.stop_sequence, r.stop_id)
      else m)
    []

/-- Comparison for `sorted(seqs, key=lambda x: x[0])`. -/
def seq_le (a b : Nat × String) : Bool :=
  decide (a.1 ≤ b.1)

/-- Build `route_trips` (app.py lines 544-550): for each trip with a known
route, the stop list ordered by stop sequence. -/
def build_route_trips (trip_to_route : List (String × String))
    (trip_stopseq : List (String × List (Nat × String))) :
    List (String × List (List String)) :=
  trip_stopseq.foldl
    (fun m p =>
      match lookupAssoc trip_to_route p.1 with
      | none => m
      | some route_id =>
        appendAssoc m route_id ((insertionSortBy seq_le p.2).map Prod.snd))
    []

/-- `max(trips, key=lambda x: len(x))`: the first trip of maximal length.
`route_trips` values are never empty; the empty case returns `[]`. -/
def max_by_len (trips : List (List String)) : List String :=
  match trips with
  | [] => []
  | t :: ts => ts.foldl (fun acc t2 => if t2.length > acc.length then t2 else acc) t

/-- Add a route id to a stop's line set (`s['lines'].add(route_id)`). -/
def addLine (lines : List String) (route_id : String) : List String :=
  if route_id ∈ lines then lines else lines ++ [route_id]

/-- Materialize the representative trip's coordinates (app.py lines 556-567):
walk the stop sequence keeping a `seen` set; a stop absent from the stops
dict is skipped, a stop id already in `seen` is skipped, otherwise its
coordinates are appended, it is added to `seen`, and the route id is added to
its line set.  Returns the coordinate list and the updated stops dict. -/
def build_route_coords (stops : List (String × StopInfo)) (best : List String)
    (route_id : String) : List (List Int) × List (String × StopInfo) :=
  let r := best.foldl
    (fun (acc : List (List Int) × List String × List (String × StopInfo)) stop_id =>
      match lookupAssoc acc.2.2 stop_id with
      | none => acc
      | some s =>
        if stop_id ∈ acc.2.1 then acc
        else
          (acc.1 ++ [[s.lat, s.lon]],
           acc.2.1 ++ [stop_id],
           setAssoc acc.2.2 stop_id { s with lines := addLine s.lines route_id }))
    ([], [], stops)
  (r.1, r.2.2)

/-- Build the `route_polylines` dict (app.py lines 553-573), threading the
stops dict through the per-route line-set updates. -/
def build_route_polylines (stops : List (String × StopInfo))
    (route_trips : List (String × List (List String))) :
    List (String × RoutePolyline) × List (String × StopInfo) :=
  route_trips.foldl
    (fun acc p =>
      let best := max_by_len p.2
      let r := build_route_coords acc.2 best p.1
      (setAssoc acc.1 p.1 { id := p.1, name := p.1, coordinates := r.1 }, r.2))
    ([], stops)

/-- Lexicographic-by-code-point string comparison (Python `sorted` on strings). -/
def lexLe : List Char → List Char → Bool
  | [], _ => true
  | _ :: _, [] => false
  | a :: as, b :: bs =>
    if a.toNat < b.toNat then true
    else if b.toNat < a.toNat then false
    else lexLe as bs

/-- String order wrapper for `sorted(list(stop['lines']))`. -/
def strLe (s t : String) : Bool :=
  lexLe s.data t.data

/-- Build `stops_list` (app.py lines 576-584): every stop with its
accumulated line set, sorted for determinism. -/
def stops_output (stops : List (String × StopInfo)) : List StopOut :=
  stops.map fun p =>
    { id := p.2.stop_id, name := p.2.name, lat := p.2.lat, lon := p.2.lon,
      lines := insertionSortBy strLe p.2.lines }

/-- The archive-to-outputs part of `parse_gtfs_static` (app.py lines 490-586). -/
def parse_gtfs_static_archive (a : GtfsArchive) :
    List (String × RoutePolyline) × List StopOut :=
  let stops := build_stops a.stops_rows
  let trip_to_route := build_trip_to_route a.trips_rows
  let trip_stopseq := build_trip_stopseq a.stop_times_rows
  let route_trips := build_route_trips trip_to_route trip_stopseq
  let r := build_route_polylines stops route_trips
  (r.1, stops_output r.2)

/-- `parse_gtfs_static` (app.py lines 482-591): an unavailable archive
(`download_gtfs_static` returned `None`) yields `({}, [])`. -/
def parse_gtfs_static (cache : Option (Int × GtfsArchive)) (now : Int)
    (net : Option GtfsArchive) : List (String × RoutePolyline) × List StopOut :=
  match download_gtfs_static cache now false net with
  | none => ([], [])
  | some a => parse_gtfs_static_archive a

/-- The `/api/route-polylines` response shape (app.py lines 594-604);
`success := true` is the non-error branch. -/
structure PolylinesResponse where
  success : Bool
  routes : List RoutePolyline
  stops : List StopOut
deriving DecidableEq, Repr

/-- `get_route_polylines` (app.py lines 594-604): parse, flatten the dict's
values into a list, answer with success. -/
def get_route_polylines (cache : Option (Int × GtfsArchive)) (now : Int)
    (net : Option GtfsArchive) : PolylinesResponse :=
  let r := parse_gtfs_static cache now net
  { success := true, routes := r.1.map Prod.snd, stops := r.2 }

/-! ## Theorems -/

theorem startsWithCh_append (p q s : List Char) (h : startsWithCh (p ++ q) s = true) :
    startsWithCh p s = true := by
  induction p generalizing s with
  | nil => rfl
  | cons a as ih =>
    cases s with
    | nil => simp [startsWithCh] at h
    | cons b bs =>
      simp only [List.cons_append, startsWithCh, Bool.and_eq_true] at h ⊢
      exact ⟨h.1, ih bs h.2⟩

theorem hasSubstr_append (s p q : List Char) (h : hasSubstr s (p ++ q) = true) :
    hasSubstr s p = true := by
  induction s with
  | nil =>
    simp only [hasSubstr, List.isEmpty_eq_true, List.append_eq_nil] at h ⊢
    exact h.1
  | cons c cs ih =>
    simp only [hasSubstr, Bool.or_eq_true] at h ⊢
    rcases h with h | h
    · exact Or.inl (startsWithCh_append p q _ h)
    · exact Or.inr (ih h)

theorem skip_stops_split : ("skip stops").data = ("skip").data ++ (" stops").data := by
  decide

theorem skip_cond_eq (t : List Char) :
    (hasSubstr t ("skip").data || hasSubstr t ("skips").data
      || hasSubstr t ("skip stops").data)
    = (hasSubstr t ("skip").data || hasSubstr t ("skips").data) := by
  cases h : hasSubstr t ("skip stops").data
  · simp [h]
  · have h1 : hasSubstr t ("skip").data = true := by
      apply hasSubstr_append t ("skip").data (" stops").data
      rw [← skip_stops_split]
      exact h
    simp [h, h1]

theorem severity_of_lower_eq_spec (t : List Char) :
    severity_of_lower t = severity_spec_of_lower t := by
  unfold severity_of_lower severity_spec_of_lower
  rw [skip_cond_eq]

theorem mem_setAssoc {β : Type} (m : List (String × β)) (k : String) (v : β)
    (p : String × β) (h : p ∈ setAssoc m k v) : p = (k, v) ∨ p ∈ m := by
  induction m with
  | nil => simpa [setAssoc] using h
  | cons q rest ih =>
    obtain ⟨k0, v0⟩ := q
    simp only [setAssoc] at h
    split at h
    · rcases List.mem_cons.mp h with h1 | h1
      · exact Or.inl h1
      · exact Or.inr (List.mem_cons_of_mem _ h1)
    · rcases List.mem_cons.mp h with h1 | h1
      · exact Or.inr (h1 ▸ List.mem_cons_self _ _)
      · rcases ih h1 with h2 | h2
        · exact Or.inl h2
        · exact Or.inr (List.mem_cons_of_mem _ h2)

theorem lookupAssoc_setAssoc_self {β : Type} (m : List (String × β)) (k : String) (v : β) :
    lookupAssoc (setAssoc m k v) k = some v := by
  induction m with
  | nil => simp [setAssoc, lookupAssoc]
  | cons q rest ih =>
    obtain ⟨k0, v0⟩ := q
    simp only [setAssoc]
    split
    · simp [lookupAssoc]
    · rename_i hne
      simp only [lookupAssoc]
      rw [if_neg hne]
      exact ih

theorem lookupAssoc_setAssoc_ne {β : Type} (m : List (String × β)) (k k' : String) (v : β)
    (h : k' ≠ k) : lookupAssoc (setAssoc m k v) k' = lookupAssoc m k' := by
  induction m with
  | nil =>
    simp only [setAssoc, lookupAssoc]
    rw [if_neg (fun h' => h (Eq.symm h'))]
  | cons q rest ih =>
    obtain ⟨k0, v0⟩ := q
    simp only [setAssoc]
    split
    · rename_i heq
      subst heq
      simp only [lookupAssoc]
      rw [if_neg (fun h' => h h'.symm), if_neg (fun h' => h h'.symm)]
    · simp only [lookupAssoc]
      split
      · rfl
      · exact ih

theorem lookupAssoc_mem {β : Type} (m : List (String × β)) (k : String) (v : β)
    (h : lookupAssoc m k = some v) : (k, v) ∈ m := by
  induction m with
  | nil => simp [lookupAssoc] at h
  | cons q rest ih =>
    obtain ⟨k0, v0⟩ := q
    simp only [lookupAssoc] at h
    split at h
    · rename_i heq
      cases h
      subst heq
      exact List.mem_cons_self _ _
    · exact List.mem_cons_of_mem _ (ih h)

theorem maxPriority_append (msgs : List AlertMessage) (m : AlertMessage) :
    maxPriority (msgs ++ [m]) = Nat.max (maxPriority msgs) (status_priority m.status) := by
  unfold maxPriority
  rw [List.foldl_append]
  rfl

theorem fold_alert_message_invariant (m : List (String × RouteEntry)) (route_id : String)
    (msg : AlertMessage) (h : ∀ r e, (r, e) ∈ m → entryInvariant e) :
    ∀ r e, (r, e) ∈ fold_alert_message m route_id msg → entryInvariant e := by
  intro r e hm
  unfold fold_alert_message at hm
  rcases mem_setAssoc _ _ _ _ hm with heq | hold
  · have he : e =
        (if status_priority msg.status >
            status_priority ((lookupAssoc m route_id).getD
              { status := .good, messages := [] }).status then
          { status := msg.status,
            messages := ((lookupAssoc m route_id).getD
              { status := .good, messages := [] }).messages ++ [msg] }
        else
          { status := ((lookupAssoc m route_id).getD
              { status := .good, messages := [] }).status,
            messages := ((lookupAssoc m route_id).getD
              { status := .good, messages := [] }).messages ++ [msg] }) := by
      have := congrArg Prod.snd heq
      simpa using this
    have h0 : entryInvariant ((lookupAssoc m route_id).getD
        { status := .good, messages := [] }) ∨
        (lookupAssoc m route_id).getD { status := .good, messages := [] } =
          { status := .good, messages := [] } := by
      cases hl : lookupAssoc m route_id with
      | none => exact Or.inr rfl
      | some e0 => exact Or.inl (by simpa using h route_id e0 (lookupAssoc_mem m route_id e0 hl))
    set e0 := (lookupAssoc m route_id).getD { status := .good, messages := [] } with he0
    have hrank : status_priority e0.status = maxPriority e0.messages := by
      rcases h0 with h0 | h0
      · exact h0.2
      · rw [h0]
        rfl
    constructor
    · rw [he]
      split <;> simp
    · rw [he]
      split
      · rename_i hgt
        simp only [maxPriority_append]
        rw [← hrank]
        exact (Nat.max_eq_right (Nat.le_of_lt hgt)).symm
      · rename_i hgt
        simp only [maxPriority_append]
        rw [← hrank]
        exact (Nat.max_eq_left (Nat.le_of_not_lt hgt)).symm
  · exact h r e hold

theorem foldl_alert_invariant (items : List (String × AlertMessage))
    (m : List (String × RouteEntry)) (h : ∀ r e, (r, e) ∈ m → entryInvariant e) :
    ∀ r e, (r, e) ∈ items.foldl (fun m p => fold_alert_message m p.1 p.2) m →
      entryInvariant e := by
  induction items generalizing m with
  | nil => simpa using h
  | cons p rest ih =>
    intro r e hm
    exact ih (fold_alert_message m p.1 p.2)
      (fold_alert_message_invariant m p.1 p.2 h) r e hm

/-- Every entry of the classifier's output satisfies the invariant. -/
theorem route_status_invariant (feed : Option FeedMessage) :
    ∀ r e, (r, e) ∈ get_route_status_from_alerts feed → entryInvariant e := by
  intro r e hm
  cases feed with
  | none => simp [get_route_status_from_alerts] at hm
  | some f =>
    exact foldl_alert_invariant (alert_items f.entity) [] (by simp) r e hm

theorem route_rank_mono (m : List (String × RouteEntry)) (route_id : String)
    (msg : AlertMessage) (r : String) :
    route_rank m r ≤ route_rank (fold_alert_message m route_id msg) r := by
  unfold fold_alert_message
  by_cases hr : r = route_id
  · subst hr
    unfold route_rank
    rw [lookupAssoc_setAssoc_self]
    cases hl : lookupAssoc m r with
    | none => simp
    | some e0 =>
      simp only [hl, Option.getD_some]
      split
      · rename_i hgt
        exact Nat.le_of_lt hgt
      · exact Nat.le_refl _
  · unfold route_rank
    rw [lookupAssoc_setAssoc_ne _ _ _ _ hr]

/-! ## Sortedness of the stable insertion sort -/

theorem mem_insertSorted {α : Type} (le : α → α → Bool) (x y : α) (l : List α)
    (h : y ∈ insertSorted le x l) : y = x ∨ y ∈ l := by
  induction l with
  | nil => simpa [insertSorted] using h
  | cons z zs ih =>
    simp only [insertSorted] at h
    split at h
    · rcases List.mem_cons.mp h with h1 | h1
      · exact Or.inl h1
      · exact Or.inr h1
    · rcases List.mem_cons.mp h with h1 | h1
      · exact Or.inr (h1 ▸ List.mem_cons_self _ _)
      · rcases ih h1 with h2 | h2
        · exact Or.inl h2
        · exact Or.inr (List.mem_cons_of_mem _ h2)

theorem pairwise_insertSorted {α : Type} (le : α → α → Bool)
    (htot : ∀ a b, le a b = false → le b a = true)
    (htrans : ∀ a b c, le a b = true → le b c = true → le a c = true)
    (x : α) (l : List α) (h : List.Pairwise (fun a b => le a b = true) l) :
    List.Pairwise (fun a b => le a b = true) (insertSorted le x l) := by
  induction l with
  | nil => simp [insertSorted]
  | cons y ys ih =>
    rcases List.pairwise_cons.mp h with ⟨hy, hys⟩
    simp only [insertSorted]
    split
    · rename_i hxy
      refine List.pairwise_cons.mpr ⟨?_, h⟩
      intro z hz
      rcases List.mem_cons.mp hz with h1 | h1
      · exact h1 ▸ hxy
      · exact htrans x y z hxy (hy z h1)
    · rename_i hxy
      refine List.pairwise_cons.mpr ⟨?_, ih hys⟩
      intro z hz
      rcases mem_insertSorted le x z ys hz with h1 | h1
      · exact h1 ▸ htot x y (Bool.eq_false_iff.mpr hxy)
      · exact hy z h1

theorem pairwise_insertionSortBy {α : Type} (le : α → α → Bool)
    (htot : ∀ a b, le a b = false → le b a = true)
    (htrans : ∀ a b c, le a b = true → le b c = true → le a c = true)
    (l : List α) :
    List.Pairwise (fun a b => le a b = true) (insertionSortBy le l) := by
  induction l with
  | nil => simp [insertionSortBy]
  | cons x xs ih =>
    exact pairwise_insertSorted le htot htrans x (insertionSortBy le xs) ih

/-! ## Claims about the alert classifier -/

/-- C4: severity classification of a combined alert text is a
case-insensitive substring match evaluated in the spec's fixed priority
order with first match winning; in particular every text whose lowercasing
contains "suspended" classifies as service-change, and every text whose
lowercasing contains "delay" but none of the service-change keywords
classifies as delay. -/
theorem claim_c4 (s : String) :
    classify_combined_text s = classify_spec s ∧
    (hasSubstr (lowerStr s) ("suspended").data = true →
      classify_combined_text s = Status.serviceChange) ∧
    (hasSubstr (lowerStr s) ("delay").data = true →
      hasSubstr (lowerStr s) ("suspended").data = false →
      hasSubstr (lowerStr s) ("no service").data = false →
      hasSubstr (lowerStr s) ("not operating").data = false →
      hasSubstr (lowerStr s) ("skip").data = false →
      hasSubstr (lowerStr s) ("skips").data = false →
      (hasSubstr (lowerStr s) ("express").data
        && (hasSubstr (lowerStr s) ("running").data
          || hasSubstr (lowerStr s) ("skip").data)) = false →
      hasSubstr (lowerStr s) ("modified schedule").data = false →
      hasSubstr (lowerStr s) ("adjusted schedule").data = false →
      classify_combined_text s = Status.delay) := by
  refine ⟨severity_of_lower_eq_spec (lowerStr s), ?_, ?_⟩
  · intro h
    unfold classify_combined_text severity_of_lower
    simp [h]
  · intro h1 h2 h3 h4 h5 h6 h7 h8 h9
    unfold classify_combined_text severity_of_lower
    simp [h1, h2, h3, h4]

/-- Witness for C4 at concrete alert texts (mixed case for the
"suspended" clause). -/
theorem claim_c4_witness :
    classify_combined_text "Trains SUSPENDED in both directions" = Status.serviceChange ∧
    classify_combined_text "Expect delays because of signal problems" = Status.delay :=
  ⟨(claim_c4 "Trains SUSPENDED in both directions").2.1 (by decide),
   (claim_c4 "Expect delays because of signal problems").2.2 (by decide) (by decide)
     (by decide) (by decide) (by decide) (by decide) (by decide) (by decide) (by decide)⟩

/-- C5: after any sequence of messages has been folded in, every route entry
of the classifier's mapping carries the maximum-rank severity among its
messages (rank good = 0, delay = 1, service-change = 2), and folding one
more message into the mapping never decreases any route's severity rank. -/
theorem claim_c5 :
    (∀ feed r e, (r, e) ∈ get_route_status_from_alerts feed →
      status_priority e.status = maxPriority e.messages) ∧
    (∀ m route_id msg r,
      route_rank m r ≤ route_rank (fold_alert_message m route_id msg) r) :=
  ⟨fun feed r e hm => (route_status_invariant feed r e hm).2, route_rank_mono⟩

/-- Witness for C5: a one-alert feed for route "A". -/
theorem claim_c5_witness :
    status_priority
        ({ status := Status.delay,
           messages := [{ header := ("Delays").data, description := [],
                          text := ("Delays").data, status := Status.delay }] } :
          RouteEntry).status =
      maxPriority
        ({ status := Status.delay,
           messages := [{ header := ("Delays").data, description := [],
                          text := ("Delays").data, status := Status.delay }] } :
          RouteEntry).messages ∧
    route_rank [] "A" ≤
      route_rank
        (fold_alert_message [] "A"
          { header := [], description := [], text := [], status := Status.good }) "A" :=
  ⟨claim_c5.1
      (some ⟨[⟨some ⟨[⟨some "A"⟩], ⟨[⟨"Delays"⟩]⟩, ⟨[]⟩⟩, none⟩]⟩)
      "A"
      { status := Status.delay,
        messages := [{ header := ("Delays").data, description := [],
                       text := ("Delays").data, status := Status.delay }] }
      (by decide),
   claim_c5.2 [] "A" { header := [], description := [], text := [], status := Status.good } "A"⟩

/-- C10: every route entry of the classifier's mapping has a non-empty
message list (so the aggregator's access to the first message is defined)
and a status among good, delay, service-change. -/
theorem claim_c10 (feed : Option FeedMessage) (r : String) (e : RouteEntry)
    (hm : (r, e) ∈ get_route_status_from_alerts feed) :
    (∃ m0 ms, e.messages = m0 :: ms) ∧
    (e.status = Status.good ∨ e.status = Status.delay ∨
      e.status = Status.serviceChange) := by
  have h := route_status_invariant feed r e hm
  constructor
  · cases hms : e.messages with
    | nil => exact absurd hms h.1
    | cons m0 ms => exact ⟨m0, ms, rfl⟩
  · cases hst : e.status with
    | good => exact Or.inl rfl
    | delay => exact Or.inr (Or.inl rfl)
    | serviceChange => exact Or.inr (Or.inr rfl)

/-- Witness for C10: a one-alert feed for route "B" with a suspension text. -/
theorem claim_c10_witness :
    (∃ m0 ms,
      ({ status := Status.serviceChange,
         messages := [{ header := ("Service suspended").data, description := [],
                        text := ("Service suspended").data,
                        status := Status.serviceChange }] } :
        RouteEntry).messages = m0 :: ms) ∧
    (({ status := Status.serviceChange,
        messages := [{ header := ("Service suspended").data, description := [],
                       text := ("Service suspended").data,
                       status := Status.serviceChange }] } :
        RouteEntry).status = Status.good ∨
      ({ status := Status.serviceChange,
         messages := [{ header := ("Service suspended").data, description := [],
                        text := ("Service suspended").data,
                        status := Status.serviceChange }] } :
        RouteEntry).status = Status.delay ∨
      ({ status := Status.serviceChange,
         messages := [{ header := ("Service suspended").data, description := [],
                        text := ("Service suspended").data,
                        status := Status.serviceChange }] } :
        RouteEntry).status = Status.serviceChange) :=
  claim_c10
    (some ⟨[⟨some ⟨[⟨some "B"⟩], ⟨[⟨"Service suspended"⟩]⟩, ⟨[]⟩⟩, none⟩]⟩)
    "B"
    { status := Status.serviceChange,
      messages := [{ header := ("Service suspended").data, description := [],
                     text := ("Service suspended").data,
                     status := Status.serviceChange }] }
    (by decide)

/-! ## Claims about the service status aggregator and its cache -/

/-- C6: for every alert mapping the aggregator emits exactly the 24 catalog
routes; a route present in the mapping keeps its computed severity, its full
message list and its first message's text as primary display message; an
absent route is emitted as good with the single synthetic "Good Service"
message. -/
theorem claim_c6 (route_status : List (String × RouteEntry)) :
    (build_service_data route_status).length = 24 ∧
    ∀ rid nm, (rid, nm) ∈ all_lines →
      ∃ e, e ∈ build_service_data route_status ∧ e.id = rid ∧ e.name = nm ∧
        (∀ st, lookupAssoc route_status rid = some st →
          e.status = st.status ∧ e.messages = st.messages ∧
          ∀ m0 ms, st.messages = m0 :: ms → e.message = m0.text) ∧
        (lookupAssoc route_status rid = none →
          e.status = Status.good ∧ e.message = ("Good Service").data ∧
          e.messages = [good_service_message]) := by
  constructor
  · simp [build_service_data, all_lines]
  · intro rid nm hmem
    refine ⟨_, List.mem_map_of_mem _ hmem, ?_⟩
    cases hl : lookupAssoc route_status rid with
    | some st =>
      refine ⟨?_, ?_, ?_, ?_⟩
      · simp only [hl]
      · simp only [hl]
      · intro st' hst'
        obtain rfl := Option.some.inj hst'
        refine ⟨rfl, rfl, ?_⟩
        intro m0 ms hms
        simp only [hms]
      · intro hnone
        exact Option.noConfusion hnone
    | none =>
      refine ⟨?_, ?_, ?_, ?_⟩
      · simp only [hl]
      · simp only [hl]
      · intro st' hst'
        exact Option.noConfusion hst'
      · intro _
        exact ⟨rfl, rfl, rfl⟩

/-- Witness for C6: the empty alert mapping at catalog route "1". -/
theorem claim_c6_witness :
    ∃ e, e ∈ build_service_data [] ∧ e.id = "1" ∧ e.name = "1 Line" ∧
      (∀ st, lookupAssoc ([] : List (String × RouteEntry)) "1" = some st →
        e.status = st.status ∧ e.messages = st.messages ∧
        ∀ m0 ms, st.messages = m0 :: ms → e.message = m0.text) ∧
      (lookupAssoc ([] : List (String × RouteEntry)) "1" = none →
        e.status = Status.good ∧ e.message = ("Good Service").data ∧
        e.messages = [good_service_message]) :=
  (claim_c6 []).2 "1" "1 Line" (by decide)

/-- C2: evaluation of the persist loop at a failing input.  Two computation
cycles from an empty table (no alerts in either cycle) leave two
`service_status_cache` rows for route "1" — `INSERT OR REPLACE` never
replaces because the schema has no unique constraint on `route_id`, so the
store does not hold at most one row per route. -/
theorem claim_c2_code_eval :
    (((service_status_cycle (service_status_cycle ⟨[], 1⟩ none 0) none 1).rows.filter
      (fun r => decide (r.route_id = "1"))).length = 2) ∧
    ¬ ∀ r1 r2,
        r1 ∈ (service_status_cycle (service_status_cycle ⟨[], 1⟩ none 0) none 1).rows →
        r2 ∈ (service_status_cycle (service_status_cycle ⟨[], 1⟩ none 0) none 1).rows →
        r1.route_id = r2.route_id → r1 = r2 := by
  constructor
  · decide
  · intro h
    have h2 := h
      { id := 1, route_id := "1", status := Status.good,
        message := ("Good Service").data, updated_at := 0 }
      { id := 25, route_id := "1", status := Status.good,
        message := ("Good Service").data, updated_at := 1 }
      (by decide) (by decide) rfl
    exact absurd (congrArg CacheRow.id h2) (by decide)

/-! ## Claims about the arrival extractor -/

/-- C7: for every station and every collection of feed results the returned
arrivals list is sorted ascending by minutes and has at most 10 entries. -/
theorem claim_c7 (station_id : String) (current_time : Int)
    (feeds : List (Option FeedMessage)) :
    List.Pairwise (fun a b : Arrival => a.minutes ≤ b.minutes)
      (get_arrivals station_id current_time feeds) ∧
    (get_arrivals station_id current_time feeds).length ≤ 10 := by
  constructor
  · have hs := pairwise_insertionSortBy arrival_le
      (fun a b hab => by
        simpa [arrival_le] using Int.le_of_not_le (by simpa [arrival_le] using hab))
      (fun a b c hab hbc => by
        simp only [arrival_le, decide_eq_true_eq] at hab hbc ⊢
        exact le_trans hab hbc)
      (collect_arrivals station_id current_time feeds)
    have hp : List.Pairwise (fun a b : Arrival => a.minutes ≤ b.minutes)
        (insertionSortBy arrival_le (collect_arrivals station_id current_time feeds)) :=
      hs.imp (fun hab => by simpa [arrival_le, decide_eq_true_eq] using hab)
    exact hp.sublist (List.take_sublist 10 _)
  · exact le_trans (List.length_take_le 10 _) (le_refl 10)

/-- C8: for every stop-time update with an arrival time present, the emitted
minutes equal `max 0 ⌊(arrival − now) / 60⌋` (floor division) and are never
negative, even when the arrival time is in the past. -/
theorem claim_c8 (station_id : String) (current_time : Int) (route_id : String)
    (stop_time : StopTimeUpdate) (arrival_time : Int) (a : Arrival)
    (harr : stop_time.arrival = some arrival_time)
    (hemit : emit_arrival station_id current_time route_id stop_time = some a) :
    a.minutes = max 0 ⌊((arrival_time : ℚ) - (current_time : ℚ)) / 60⌋ ∧
    0 ≤ a.minutes := by
  unfold emit_arrival at hemit
  split at hemit
  · rw [harr] at hemit
    obtain rfl := Option.some.inj hemit
    constructor
    · show arrival_minutes arrival_time current_time = _
      unfold arrival_minutes
      have h := Rat.floor_intCast_div_natCast (arrival_time - current_time) 60
      push_cast at h
      rw [Int.fdiv_eq_ediv _ (by norm_num), h]
    · show 0 ≤ arrival_minutes arrival_time current_time
      exact le_max_left 0 _
  · exact Option.noConfusion hemit

/-- Witness for C8: a train whose arrival time (epoch 0) is already in the
past at the current time 600 is clamped to 0 minutes. -/
theorem claim_c8_witness :
    ({ line := "7", direction := "Uptown", minutes := 0 } : Arrival).minutes =
      max 0 ⌊(((0 : Int) : ℚ) - ((600 : Int) : ℚ)) / 60⌋ ∧
    0 ≤ ({ line := "7", direction := "Uptown", minutes := 0 } : Arrival).minutes :=
  claim_c8 "127" 600 "7" { stop_id := "127N", arrival := some 0 } 0
    { line := "7", direction := "Uptown", minutes := 0 } rfl (by decide)

/-! ## Claims about the static schedule loader and route topology builder -/

/-- C3 counterexample: a cached archive exactly one TTL old (stale) together
with a failed download makes `download_gtfs_static` return the unavailable
result, not the stale cached file. -/
theorem claim_c3_counterexample :
    download_gtfs_static (some (0, ⟨[], [], []⟩)) GTFS_CACHE_TTL false none = none := by
  decide

/-- C3 amended: whenever the cached archive is outside the 24-hour freshness
window and the re-download fails, the loader returns the unavailable result
(`None`); the stale cached file is never served as a fallback. -/
theorem claim_c3_amended (mtime now : Int) (archive : GtfsArchive)
    (hstale : GTFS_CACHE_TTL ≤ now - mtime) :
    download_gtfs_static (some (mtime, archive)) now false none = none := by
  have hred : download_gtfs_static (some (mtime, archive)) now false none =
      if now - mtime < GTFS_CACHE_TTL then some archive else none := rfl
  rw [hred, if_neg (not_lt.mpr hstale)]

/-- Witness for the amended C3: an empty cached archive 25 hours old. -/
theorem claim_c3_amended_witness :
    download_gtfs_static (some (0, ⟨[], [], []⟩)) 90000 false none = none :=
  claim_c3_amended 0 90000 ⟨[], [], []⟩ (by decide)

/-- C9: when the static archive download fails and no local cache exists,
the route-polylines endpoint answers success with empty routes and stops. -/
theorem claim_c9 (now : Int) :
    get_route_polylines none now none =
      { success := true, routes := [], stops := [] } := rfl

/-- C1: evaluation of the topology builder at a failing input.  A
representative trip visiting stop "A", then "B", then "A" again yields the
coordinates of "A" and "B" only once — the non-adjacent recurrence of "A" is
dropped by the global `seen` set, although the source comment (and the spec)
promise only consecutive-duplicate removal, which would keep it. -/
theorem claim_c1_code_eval :
    (parse_gtfs_static_archive
      ⟨[⟨"A", "Stop A", "", 1, 2⟩, ⟨"B", "Stop B", "", 3, 4⟩],
       [⟨"T1", "R"⟩],
       [⟨"T1", "A", 1⟩, ⟨"T1", "B", 2⟩, ⟨"T1", "A", 3⟩]⟩).1 =
      [("R", { id := "R", name := "R", coordinates := [[1, 2], [3, 4]] })] ∧
    (parse_gtfs_static_archive
      ⟨[⟨"A", "Stop A", "", 1, 2⟩, ⟨"B", "Stop B", "", 3, 4⟩],
       [⟨"T1", "R"⟩],
       [⟨"T1", "A", 1⟩, ⟨"T1", "B", 2⟩, ⟨"T1", "A", 3⟩]⟩).1 ≠
      [("R", { id := "R", name := "R", coordinates := [[1, 2], [3, 4], [1, 2]] })] := by
  constructor
  · decide
  · decide
